import Mathlib

/-!
# GroundSide link-protocol engine: a shallow embedding

This file embeds the GroundSide front end (`src/GroundSide/GroundSide.py`)
in Lean 4 and proves/refutes the specification's claims about it.

The embedding follows the Python source line by line:

* `utf8DecodeIgnore` models `bytes.decode('utf-8', errors='ignore')`:
  valid UTF-8 sequences are decoded, every maximal invalid subpart is
  silently dropped (never replaced, never raising).
* `pyStrip` models `str.strip()` over the ASCII whitespace characters.
* `pySplitList` models `str.split(sep, maxsplit)`.
* `ParseRYLR` models the function of the same name (lines 63-90):
  classification of one inbound line into payload / AT-response / blank.
* `SendRYLR` models the function of the same name (lines 92-146):
  command validation, the OTP confirmation gate for ARM/LAUNCH, and the
  AT+SEND frame writes.  The nondeterministic OTP generation
  (`secrets.choice(digits)` four times) is abstracted as the parameter
  `otp`; the operator's successive `input()` calls are modelled by the
  stream `stdin : Nat -> String`, and the returned `Nat` counts how many
  `input()` calls were made.
* `comPortGateExit` / `interruptShutdown` model the module-level COM-port
  validation (lines 37-46) and the `KeyboardInterrupt` handler
  (lines 230-234); a bare Python `sys.exit()` terminates with status 0.
* `keyboardBranch` models the keyboard arm of the main loop
  (lines 189-223), including the `UnicodeDecodeError` handler.
-/

/-- Is `b` a UTF-8 continuation byte (`0x80..0xBF`)? -/
def isCont (b : Nat) : Bool := 0x80 ≤ b && b ≤ 0xBF

/-- Worker for `utf8DecodeIgnore`, structurally recursive on a fuel that
always dominates the length of the byte list (each step consumes at least
one byte and one unit of fuel, so the fuel-exhausted branch is dead code
whenever the fuel starts at the list length). -/
def utf8DecodeIgnoreAux : Nat → List Nat → List Char
  | _, [] => []
  | 0, _ :: _ => []
  | fuel + 1, b :: rest =>
    if b ≤ 0x7F then
      Char.ofNat b :: utf8DecodeIgnoreAux fuel rest
    else if 0xC2 ≤ b && b ≤ 0xDF then
      match rest with
      | [] => []
      | b2 :: rest2 =>
        if isCont b2 then
          Char.ofNat ((b - 0xC0) * 0x40 + (b2 - 0x80)) :: utf8DecodeIgnoreAux fuel rest2
        else utf8DecodeIgnoreAux fuel rest
    else if 0xE0 ≤ b && b ≤ 0xEF then
      match rest with
      | [] => []
      | b2 :: rest2 =>
        if (if b = 0xE0 then decide (0xA0 ≤ b2) && decide (b2 ≤ 0xBF)
            else if b = 0xED then decide (0x80 ≤ b2) && decide (b2 ≤ 0x9F)
            else isCont b2) then
          match rest2 with
          | [] => []
          | b3 :: rest3 =>
            if isCont b3 then
              Char.ofNat ((b - 0xE0) * 0x1000 + (b2 - 0x80) * 0x40 + (b3 - 0x80))
                :: utf8DecodeIgnoreAux fuel rest3
            else utf8DecodeIgnoreAux fuel rest2
        else utf8DecodeIgnoreAux fuel rest
    else if 0xF0 ≤ b && b ≤ 0xF4 then
      match rest with
      | [] => []
      | b2 :: rest2 =>
        if (if b = 0xF0 then decide (0x90 ≤ b2) && decide (b2 ≤ 0xBF)
            else if b = 0xF4 then decide (0x80 ≤ b2) && decide (b2 ≤ 0x8F)
            else isCont b2) then
          match rest2 with
          | [] => []
          | b3 :: rest3 =>
            if isCont b3 then
              match rest3 with
              | [] => []
              | b4 :: rest4 =>
                if isCont b4 then
                  Char.ofNat ((b - 0xF0) * 0x40000 + (b2 - 0x80) * 0x1000
                      + (b3 - 0x80) * 0x40 + (b4 - 0x80))
                    :: utf8DecodeIgnoreAux fuel rest4
                else utf8DecodeIgnoreAux fuel rest3
            else utf8DecodeIgnoreAux fuel rest2
        else utf8DecodeIgnoreAux fuel rest
    else
      utf8DecodeIgnoreAux fuel rest

/-- Model of Python `bytes.decode('utf-8', errors='ignore')`: decode valid
UTF-8 sequences, drop every maximal invalid subpart silently (the lead byte
together with the continuation bytes that did match), never fail. -/
def utf8DecodeIgnore (bs : List Nat) : List Char :=
  utf8DecodeIgnoreAux bs.length bs

/-- The ASCII whitespace characters stripped by Python `str.strip()`. -/
def pyIsSpace (c : Char) : Bool :=
  c = ' ' || c = '\t' || c = '\n' || c = '\r' || c = '\x0B' || c = '\x0C'

/-- Model of Python `str.strip()`: remove whitespace from both ends. -/
def pyStrip (s : String) : String :=
  String.mk (((s.data.dropWhile pyIsSpace).reverse.dropWhile pyIsSpace).reverse)

/-- Split `cs` at the first occurrence of `sep`: `some (before, after)`,
or `none` when `sep` does not occur. -/
def splitFirst (sep : Char) : List Char → Option (List Char × List Char)
  | [] => none
  | c :: cs =>
    if c = sep then some ([], cs)
    else
      match splitFirst sep cs with
      | none => none
      | some (pre, post) => some (c :: pre, post)

/-- Model of Python `str.split(sep, maxsplit)` on character lists:
at most `maxsplit` splits, applied left to right. -/
def pySplitList (sep : Char) : List Char → Nat → List (List Char)
  | cs, 0 => [cs]
  | cs, n + 1 =>
    match splitFirst sep cs with
    | none => [cs]
    | some (pre, post) => pre :: pySplitList sep post n

/-- Model of Python `str.split(sep, maxsplit)` on strings. -/
def pySplit (s : String) (sep : Char) (maxsplit : Nat) : List String :=
  (pySplitList sep s.data maxsplit).map String.mk

/-- Model of Python `str.startswith(pre)`. -/
def pyStartsWith (s pre : String) : Bool := List.isPrefixOf pre.data s.data

/-- The classification stage of `ParseRYLR` (lines 74-90), applied to the
already decoded and stripped line `parsed`:
a `+RCV=` line yields the third comma-separated field of
`parsed.split(',', maxsplit=4)` (the `IndexError` handler yields the blank
marker `"\n"`); any other non-empty line is tagged `"-> "`; an empty line
yields the blank marker. -/
def ParseRYLRLine (parsed : String) : String :=
  if pyStartsWith parsed "+RCV=" then
    match (pySplit parsed ',' 4)[2]? with
    | some data => data
    | none => "\n"
  else if parsed = "" then "\n"
  else "-> " ++ parsed

/-- Model of `ParseRYLR` (lines 63-90).  `in_waiting` models
`RYLR.in_waiting`; `raw` is the byte sequence returned by
`RYLR.read_until(b'\n')`.  The bytes are decoded with
`errors='ignore'` and stripped before classification. -/
def ParseRYLR (in_waiting : Bool) (raw : List Nat) : String :=
  if !in_waiting then "\n"
  else ParseRYLRLine (pyStrip (String.mk (utf8DecodeIgnore raw)))

/-- The UTF-8 bytes of an ASCII string (used to build concrete inbound
lines; every character of the argument is below `0x80`). -/
def asciiBytes (s : String) : List Nat := s.data.map Char.toNat

example : ParseRYLR true (asciiBytes "+RCV=1,4,ARM,-50,9\n") = "ARM" := by decide
example : ParseRYLR true (asciiBytes "+RCV=1,4,ARM,-50\n") = "ARM" := by decide
example : ParseRYLR true (asciiBytes "+RCV=1\n") = "\n" := by decide
example : ParseRYLR true (asciiBytes "+OK\n") = "-> +OK" := by decide
example : ParseRYLR false [] = "\n" := by decide
example : ParseRYLR true [0x41, 0xFF, 0x42, 0x0A] = "-> AB" := by decide

/-- The command names accepted as-is by `SendRYLR` (line 97). -/
def recognizedStates : List String := ["SAFE", "ARM", "LAUNCH", "CONVERT"]

/-- Model of `SendRYLR` (lines 92-146).  `otp` stands for the four-digit
code produced by joining four `choice(digits)` draws (the
cryptographic generator is nondeterministic, so the generated code is a
parameter); `stdin n` is the operator's answer to the `(n+1)`-st `input()`
call of this invocation.  The result is the list of strings passed to
`RYLR.write` (each encoded to bytes in the source), paired with the number
of `input()` calls made.  The pairs `s1`, `s2`, `s3` thread the mutable
`OverrideResponse` flag and the `input()` count through the three
sequential `if` statements of the source. -/
def SendRYLR (State : String) (otp : String) (stdin : Nat → String) :
    List String × Nat :=
  let s0 : Bool × Nat := (false, 0)
  let s1 : Bool × Nat :=
    if State ∈ recognizedStates then s0 else (true, s0.2)
  let s2 : Bool × Nat :=
    if State = "ARM" then
      (if stdin s1.2 ≠ otp then true else s1.1, s1.2 + 1)
    else s1
  let s3 : Bool × Nat :=
    if State = "LAUNCH" then
      (if stdin s2.2 ≠ otp then true else s2.1, s2.2 + 1)
    else s2
  (if s3.1 then
    ["AT+SEND=0,", "4,SAFE\r\n"]
  else
    ["AT+SEND=0,", toString State.length, "," ++ State ++ "\r\n"], s3.2)

example :
    SendRYLR "CONVERT" "1234" (fun _ => "") =
      (["AT+SEND=0,", "7", ",CONVERT\r\n"], 0) := by decide
example :
    SendRYLR "ARM" "1234" (fun _ => "1234") =
      (["AT+SEND=0,", "3", ",ARM\r\n"], 1) := by decide
example :
    SendRYLR "ARM" "1234" (fun _ => "9999") =
      (["AT+SEND=0,", "4,SAFE\r\n"], 1) := by decide
example :
    SendRYLR "DESTROY" "1234" (fun _ => "") =
      (["AT+SEND=0,", "4,SAFE\r\n"], 0) := by decide

/-- Model of the module-level COM-port validation (lines 37-46): when
`'COM' + PortID` is not among the names of the enumerated ports, the
script notifies the operator, waits for an acknowledging keypress, and
calls `sys.exit()` with no argument, which terminates the process with
exit status 0.  `some code` means the process exits with status `code`;
`none` means startup proceeds. -/
def comPortGateExit (PortID : String) (ports : List String) : Option Nat :=
  if ("COM" ++ PortID) ∈ ports then none else some 0

/-- Model of the `KeyboardInterrupt` handler of the main loop
(lines 230-234): the serial channel is closed (`RYLR.close()`) and the
process terminates via a bare `sys.exit()`, i.e. with exit status 0.
The pair records (channel closed?, exit status). -/
def interruptShutdown : Bool × Nat := (true, 0)

/-- Strict UTF-8 decoding of the single byte returned by
`msvcrt.getch()` (line 194): a lone byte decodes successfully exactly
when it is below `0x80`; any lone byte `0x80..0xFF` raises
`UnicodeDecodeError` (modelled as `none`). -/
def decodeKeyByte (b : Nat) : Option Char :=
  if b ≤ 0x7F then some (Char.ofNat b) else none

/-- Result of one pass through the keyboard arm of the main loop:
the new line-edit buffer, the text echoed to the display, and the
command submitted to `SendRYLR` (if any). -/
structure KeyTick where
  buffer : String
  echo : String
  sent : Option String
  deriving DecidableEq

/-- Model of the keyboard arm of the main loop (lines 189-223), given the
current `input_buffer` and the byte returned by `msvcrt.getch()`.
A `UnicodeDecodeError` is swallowed (`pass`); Enter (`'\r'`) prints a
newline, submits a non-empty buffer, clears it and re-prints the prompt
`"> "`; Backspace (`'\x08'`) removes the last buffered character and erases
it from the screen; any other character is appended and echoed. -/
def keyboardBranch (input_buffer : String) (key : Nat) : KeyTick :=
  match decodeKeyByte key with
  | none => ⟨input_buffer, "", none⟩
  | some c =>
    if c = '\r' then
      ⟨"", "\n" ++ "> ", if input_buffer = "" then none else some input_buffer⟩
    else if c = '\x08' then
      if 0 < input_buffer.length then
        ⟨String.mk input_buffer.data.dropLast, "\x08 \x08", none⟩
      else ⟨input_buffer, "", none⟩
    else
      ⟨input_buffer ++ String.mk [c], String.mk [c], none⟩

example : keyboardBranch "AR" 0x4D = ⟨"ARM", "M", none⟩ := by decide
example : keyboardBranch "ARM" 0x0D = ⟨"", "\n> ", some "ARM"⟩ := by decide
example : keyboardBranch "ARM" 0x08 = ⟨"AR", "\x08 \x08", none⟩ := by decide
example : keyboardBranch "ARM" 0xE0 = ⟨"ARM", "", none⟩ := by decide

/-- Modelled from the spec: the Transmission Supervisor's
acknowledgement outcome (§4.3).  The script variant under `src/` writes
the frame and returns without awaiting an acknowledgement; the
send-then-await-acknowledgement step lives in the repository's other
script variants, so it is modelled here from the spec's words. -/
structure SendOutcome where
  succeeded : Bool
  lastResponseText : String
  deriving DecidableEq

/-- Modelled from the spec: `Send` (§4.3) — encode and write the frame
(step 1, taken from `SendRYLR`), block until the channel has inbound
bytes and decode one line (step 2; blocking means an acknowledgement
line `ackBytes` is eventually available, so it is a parameter), and
classify it: success exactly when the decoded text contains the `"OK"`
token (step 3, lenient substring profile).  The writes and the
`SendOutcome` are both reported to the caller. -/
def TransmissionSend (effective otp : String) (stdin : Nat → String)
    (ackBytes : List Nat) : List String × SendOutcome :=
  let writes := (SendRYLR effective otp stdin).1
  let text := pyStrip (String.mk (utf8DecodeIgnore ackBytes))
  (writes, ⟨decide ("OK".data <:+: text.data), text⟩)

example :
    (TransmissionSend "SAFE" "" (fun _ => "") (asciiBytes "+OK\r\n")).2 =
      ⟨true, "+OK"⟩ := by decide
example :
    (TransmissionSend "SAFE" "" (fun _ => "") (asciiBytes "+ERR=5\r\n")).2 =
      ⟨false, "+ERR=5"⟩ := by decide

/-! ## Helper lemmas about the Python split model -/

lemma splitFirst_none_count (sep : Char) :
    ∀ cs : List Char, splitFirst sep cs = none → cs.count sep = 0 := by
  intro cs
  induction cs with
  | nil => intro _; simp
  | cons c cs ih =>
    intro h
    by_cases hc : c = sep
    · simp [splitFirst, hc] at h
    · rcases h' : splitFirst sep cs with _ | pr
      · have hz := ih h'
        have hbe : (sep == c) = false := beq_eq_false_iff_ne.mpr (Ne.symm hc)
        simp [List.count_cons, hz, hbe]
        exact hc
      · simp [splitFirst, hc, h'] at h

lemma splitFirst_some_count (sep : Char) :
    ∀ cs pre post : List Char, splitFirst sep cs = some (pre, post) →
      cs.count sep = post.count sep + 1 := by
  intro cs
  induction cs with
  | nil => intro pre post h; simp [splitFirst] at h
  | cons c cs ih =>
    intro pre post h
    by_cases hc : c = sep
    · simp [splitFirst, hc] at h
      have hbe : (sep == c) = true := beq_iff_eq.mpr hc.symm
      simp [List.count_cons, hbe, h.2]
      exact hc
    · rcases h' : splitFirst sep cs with _ | ⟨pre', post'⟩
      · simp [splitFirst, hc, h'] at h
      · simp [splitFirst, hc, h'] at h
        have hrec := ih pre' post' h'
        have hbe : (sep == c) = false := beq_eq_false_iff_ne.mpr (Ne.symm hc)
        simp [List.count_cons, hrec, hbe, h.2]
        exact hc

lemma pySplitList_length (sep : Char) :
    ∀ (n : Nat) (cs : List Char),
      (pySplitList sep cs n).length = min (cs.count sep + 1) (n + 1) := by
  intro n
  induction n with
  | zero => intro cs; simp [pySplitList]
  | succ n ih =>
    intro cs
    rcases h : splitFirst sep cs with _ | ⟨pre, post⟩
    · have := splitFirst_none_count sep cs h
      simp [pySplitList, h, this]
    · have := splitFirst_some_count sep cs pre post h
      simp [pySplitList, h, ih post, this]
      omega

lemma pySplit_length (s : String) (sep : Char) (n : Nat) :
    (pySplit s sep n).length = min (s.data.count sep + 1) (n + 1) := by
  simp [pySplit, pySplitList_length]

/-! ## The claims -/

/-- C1 counterexample: the code does not reject a `+RCV=` line with only
3 commas — `Decode("+RCV=1,4,ARM,-50\n")` yields the payload `"ARM"`,
not the malformed-branch marker `"\n"`. -/
theorem parseRYLR_three_comma_line_yields_payload :
    ParseRYLR true (asciiBytes "+RCV=1,4,ARM,-50\n") = "ARM" ∧ "ARM" ≠ "\n" := by
  decide

/-- C1 (amended): `Decode("+RCV=1,4,ARM,-50,9\n")` yields
`Payload("ARM")`; a `+RCV=` line whose comma count is at least 2 still
yields a payload (e.g. the 3-comma line `"+RCV=1,4,ARM,-50\n"` yields
`"ARM"`), and only a `+RCV=` line with fewer than 2 commas (e.g.
`"+RCV=1\n"`) takes the malformed branch, which returns the blank marker
`"\n"`. -/
theorem parseRYLR_comma_boundary :
    ParseRYLR true (asciiBytes "+RCV=1,4,ARM,-50,9\n") = "ARM" ∧
    ParseRYLR true (asciiBytes "+RCV=1,4,ARM,-50\n") = "ARM" ∧
    ParseRYLR true (asciiBytes "+RCV=1\n") = "\n" := by
  decide

/-- Case analysis of the classification stage: every stripped line maps
to the blank marker, an AT-response tag, or a `+RCV=` payload field. -/
lemma parseRYLRLine_classification (parsed : String) :
    ParseRYLRLine parsed = "\n" ∨
    (parsed ≠ "" ∧ ParseRYLRLine parsed = "-> " ++ parsed) ∨
    (∃ d, (pySplit parsed ',' 4)[2]? = some d ∧ ParseRYLRLine parsed = d) := by
  by_cases hr : pyStartsWith parsed "+RCV=" = true
  · rcases h2 : (pySplit parsed ',' 4)[2]? with _ | d
    · left; simp [ParseRYLRLine, hr, h2]
    · right; right
      exact ⟨d, rfl, by simp [ParseRYLRLine, hr, h2]⟩
  · by_cases he : parsed = ""
    · left; rw [he]; decide
    · right; left
      exact ⟨he, by simp [ParseRYLRLine, hr, he]⟩

/-- C2: `ParseRYLR` is a total function of the channel state and the raw
byte sequence, and every input is classified as exactly one of the three
result shapes of the code: the blank marker `"\n"`, an AT-response tag
`"-> " ++ parsed` with `parsed` non-empty, or the payload field extracted
from a `+RCV=` line (third field of the bounded comma split).  In
particular no inbound byte sequence can make the decode path fail: the
`IndexError` of a short `+RCV=` split is caught (yielding the blank
marker) and invalid text bytes are dropped by `errors='ignore'`. -/
theorem parseRYLR_total_classification (in_waiting : Bool) (raw : List Nat) :
    ParseRYLR in_waiting raw = "\n" ∨
    (∃ t : String, t ≠ "" ∧ ParseRYLR in_waiting raw = "-> " ++ t) ∨
    (∃ d : String,
      (pySplit (pyStrip (String.mk (utf8DecodeIgnore raw))) ',' 4)[2]? = some d ∧
      ParseRYLR in_waiting raw = d) := by
  cases in_waiting with
  | false => left; rfl
  | true =>
    have heq : ParseRYLR true raw =
        ParseRYLRLine (pyStrip (String.mk (utf8DecodeIgnore raw))) := rfl
    rcases parseRYLRLine_classification (pyStrip (String.mk (utf8DecodeIgnore raw)))
      with h | ⟨hne, h⟩ | ⟨d, hd, h⟩
    · left; rw [heq, h]
    · right; left; exact ⟨_, hne, by rw [heq, h]⟩
    · right; right; exact ⟨d, hd, by rw [heq, h]⟩

/-- C9: for a line classified as a receive notification (it starts with
`+RCV=`), the split is bounded at 4 and the third field (index 2) is
returned verbatim whenever the line has at least two commas, regardless
of the total comma count; with fewer than two commas field index 2 does
not exist and the malformed branch returns the blank marker `"\n"`. -/
theorem parseRYLRLine_rcv_field_extraction (s : String)
    (h : pyStartsWith s "+RCV=" = true) :
    (2 ≤ s.data.count ',' →
      ∃ d, (pySplit s ',' 4)[2]? = some d ∧ ParseRYLRLine s = d) ∧
    (s.data.count ',' < 2 → ParseRYLRLine s = "\n") := by
  have hlen := pySplit_length s ',' 4
  constructor
  · intro h2
    have hlt : 2 < (pySplit s ',' 4).length := by omega
    have hsome := List.getElem?_eq_getElem hlt
    exact ⟨_, hsome, by simp [ParseRYLRLine, h, hsome]⟩
  · intro h2
    have hle : (pySplit s ',' 4).length ≤ 2 := by omega
    have hnone : (pySplit s ',' 4)[2]? = none := List.getElem?_eq_none hle
    simp [ParseRYLRLine, h, hnone]

/-- Witness for C9 at the concrete line `"+RCV=1,4,ARM,-50,9"`. -/
theorem parseRYLRLine_rcv_field_extraction_witness :
    ∃ d, (pySplit "+RCV=1,4,ARM,-50,9" ',' 4)[2]? = some d ∧
      ParseRYLRLine "+RCV=1,4,ARM,-50,9" = d :=
  (parseRYLRLine_rcv_field_extraction "+RCV=1,4,ARM,-50,9" (by decide)).1
    (by decide)

/-! ## Helper lemmas about the send path -/

lemma sendRYLR_writes (State otp : String) (stdin : Nat → String) :
    (SendRYLR State otp stdin).1 =
      if State ∈ recognizedStates ∧
          ((State = "ARM" ∨ State = "LAUNCH") → stdin 0 = otp) then
        ["AT+SEND=0,", toString State.length, "," ++ State ++ "\r\n"]
      else
        ["AT+SEND=0,", "4,SAFE\r\n"] := by
  by_cases hA : State = "ARM"
  · subst hA
    by_cases hm : stdin 0 = otp <;>
      simp [SendRYLR, recognizedStates, hm]
  · by_cases hL : State = "LAUNCH"
    · subst hL
      by_cases hm : stdin 0 = otp <;>
        simp [SendRYLR, recognizedStates, hm, hA]
    · by_cases hmem : State ∈ recognizedStates <;>
        simp [SendRYLR, hmem, hA, hL]

lemma join_three (a b c : String) :
    String.join [a, b, c] = a ++ b ++ c := by
  apply String.ext
  simp [String.data_append]

lemma join_two (a b : String) :
    String.join [a, b] = a ++ b := by
  apply String.ext
  simp [String.data_append]

lemma sendRYLR_frame (State otp : String) (stdin : Nat → String) :
    ∃ p, p ∈ recognizedStates ∧
      String.join (SendRYLR State otp stdin).1 =
        "AT+SEND=0," ++ toString p.length ++ "," ++ p ++ "\r\n" ∧
      ((State ∈ recognizedStates ∧
          ((State = "ARM" ∨ State = "LAUNCH") → stdin 0 = otp)) → p = State) ∧
      ((State ∉ recognizedStates ∨
          ((State = "ARM" ∨ State = "LAUNCH") ∧ stdin 0 ≠ otp)) → p = "SAFE") := by
  rw [sendRYLR_writes]
  by_cases hc : State ∈ recognizedStates ∧
      ((State = "ARM" ∨ State = "LAUNCH") → stdin 0 = otp)
  · refine ⟨State, hc.1, ?_, fun _ => rfl, ?_⟩
    · rw [if_pos hc, join_three]
      apply String.ext
      simp [String.data_append]
    · rintro (hmem | ⟨hg, hm⟩)
      · exact absurd hc.1 hmem
      · exact absurd (hc.2 hg) hm
  · refine ⟨"SAFE", by decide, ?_, ?_, fun _ => rfl⟩
    · rw [if_neg hc, join_two]
      decide
    · intro h; exact absurd h hc

/-- C3: every payload actually framed by `SendRYLR` is a member of the
recognized set `{SAFE, ARM, LAUNCH, CONVERT}`: a request outside the set,
or a gated request (`ARM`/`LAUNCH`) whose re-entered confirmation does
not match the challenge, is coerced to the fallback payload `SAFE`;
a recognized ungated request, or a gated request whose confirmation
matches, is transmitted as-is. -/
theorem sendRYLR_payload_in_recognized_set (State otp : String)
    (stdin : Nat → String) :
    ∃ p, p ∈ recognizedStates ∧
      String.join (SendRYLR State otp stdin).1 =
        "AT+SEND=0," ++ toString p.length ++ "," ++ p ++ "\r\n" ∧
      ((State ∉ recognizedStates ∨
          ((State = "ARM" ∨ State = "LAUNCH") ∧ stdin 0 ≠ otp)) → p = "SAFE") ∧
      ((State ∈ recognizedStates ∧
          ((State = "ARM" ∨ State = "LAUNCH") → stdin 0 = otp)) → p = State) := by
  obtain ⟨p, hmem, hframe, hpass, hover⟩ := sendRYLR_frame State otp stdin
  exact ⟨p, hmem, hframe, hover, hpass⟩

/-- C4: whatever the requested command and however the confirmation goes,
the bytes `SendRYLR` writes to the channel form exactly one frame of
shape `AT+SEND=0,<len>,<payload>\r\n`, where `<len>` is the decimal byte
length of `<payload>` and the frame ends with CRLF. -/
theorem sendRYLR_single_frame_shape (State otp : String)
    (stdin : Nat → String) :
    ∃ p : String,
      String.join (SendRYLR State otp stdin).1 =
        ("AT+SEND=0," ++ toString p.utf8ByteSize ++ "," ++ p) ++ "\r\n" := by
  obtain ⟨p, hmem, hframe, -, -⟩ := sendRYLR_frame State otp stdin
  refine ⟨p, ?_⟩
  have hbyte : p.utf8ByteSize = p.length := by
    simp [recognizedStates] at hmem
    rcases hmem with rfl | rfl | rfl | rfl <;> decide
  rw [hframe, hbyte]

/-- C5: for a gated command (`ARM` or `LAUNCH`) whose single re-entered
confirmation differs from the generated challenge, the effective frame
falls back to the `SAFE` payload, and exactly one `input()` re-entry is
consumed — a mismatch is never retried. -/
theorem sendRYLR_gated_mismatch_safes (State otp : String)
    (stdin : Nat → String) (hg : State = "ARM" ∨ State = "LAUNCH")
    (hm : stdin 0 ≠ otp) :
    String.join (SendRYLR State otp stdin).1 = "AT+SEND=0,4,SAFE\r\n" ∧
    (SendRYLR State otp stdin).2 = 1 := by
  constructor
  · rw [sendRYLR_writes, if_neg, join_two]
    · decide
    · rintro ⟨-, hok⟩
      exact hm (hok hg)
  · rcases hg with rfl | rfl <;> simp [SendRYLR, recognizedStates]

/-- Witness for C5: an `ARM` request with challenge `"1234"` and
re-entry `"9999"` frames `SAFE` after exactly one re-entry attempt. -/
theorem sendRYLR_gated_mismatch_safes_witness :
    String.join (SendRYLR "ARM" "1234" (fun _ => "9999")).1 =
        "AT+SEND=0,4,SAFE\r\n" ∧
    (SendRYLR "ARM" "1234" (fun _ => "9999")).2 = 1 :=
  sendRYLR_gated_mismatch_safes "ARM" "1234" (fun _ => "9999")
    (Or.inl rfl) (by decide)

/-- C6 (spec-modelled): after the frame writes, the transmission
supervisor's outcome reports success exactly when the decoded
acknowledgement line contains the `"OK"` token, and that classification
(together with the decoded text) is what the caller receives. -/
theorem transmissionSend_ack_ok_iff (effective otp : String)
    (stdin : Nat → String) (ackBytes : List Nat) :
    ((TransmissionSend effective otp stdin ackBytes).2.succeeded = true ↔
      "OK".data <:+: (pyStrip (String.mk (utf8DecodeIgnore ackBytes))).data) ∧
    (TransmissionSend effective otp stdin ackBytes).2.lastResponseText =
      pyStrip (String.mk (utf8DecodeIgnore ackBytes)) ∧
    (TransmissionSend effective otp stdin ackBytes).1 =
      (SendRYLR effective otp stdin).1 := by
  refine ⟨?_, rfl, rfl⟩
  simp [TransmissionSend]

/-- C7 counterexample: with only `COM3` present, entering port id `"99"`
makes the startup gate exit the process — but via a bare `sys.exit()`,
i.e. with exit status 0, not a non-zero code. -/
theorem comPortGate_invalid_port_exit_code_zero :
    comPortGateExit "99" ["COM3"] = some 0 := by decide

/-- C7 (amended): an invalid COM-port identifier terminates the process
after operator acknowledgement, but with exit status 0 (a bare
`sys.exit()`), and a `KeyboardInterrupt` closes the channel and also
exits with status 0. -/
theorem comPortGate_and_interrupt_exit_codes (PortID : String)
    (ports : List String) (h : ("COM" ++ PortID) ∉ ports) :
    comPortGateExit PortID ports = some 0 ∧ interruptShutdown = (true, 0) :=
  ⟨by simp [comPortGateExit, h], rfl⟩

/-- Witness for C7 at port id `"99"` with only `COM3` available. -/
theorem comPortGate_and_interrupt_exit_codes_witness :
    ("COM" ++ "99") ∉ ["COM3"] ∧
    (comPortGateExit "99" ["COM3"] = some 0 ∧ interruptShutdown = (true, 0)) :=
  ⟨by decide, comPortGate_and_interrupt_exit_codes "99" ["COM3"] (by decide)⟩

/-- C8 counterexample: the inbound line `0x41 0xFF 0x42 0x0A` contains
the invalid byte `0xFF`, yet the decoded result `"-> AB"` carries no
replacement marker `U+FFFD` — the invalid byte was silently removed,
not visibly substituted. -/
theorem parseRYLR_invalid_byte_not_replaced :
    ParseRYLR true [0x41, 0xFF, 0x42, 0x0A] = "-> AB" ∧
    '�' ∉ (ParseRYLR true [0x41, 0xFF, 0x42, 0x0A]).data := by decide

/-- C8 (amended): the decode step uses `errors='ignore'`: a byte
sequence that is not valid text is silently dropped from the resulting
string (no replacement marker is inserted), and decoding never fails the
whole line — an invalid lead byte such as `0xFF` is removed exactly as
if it were absent, both at the decode step and end to end through
`ParseRYLR`. -/
theorem parseRYLR_invalid_byte_dropped (bs : List Nat) :
    utf8DecodeIgnore (0xFF :: bs) = utf8DecodeIgnore bs ∧
    ParseRYLR true (0xFF :: bs) = ParseRYLR true bs := by
  have hdec : utf8DecodeIgnore (0xFF :: bs) = utf8DecodeIgnore bs := by
    show utf8DecodeIgnoreAux (bs.length + 1) (0xFF :: bs) =
      utf8DecodeIgnoreAux bs.length bs
    norm_num [utf8DecodeIgnoreAux, isCont]
  refine ⟨hdec, ?_⟩
  show ParseRYLRLine (pyStrip (String.mk (utf8DecodeIgnore (0xFF :: bs)))) =
    ParseRYLRLine (pyStrip (String.mk (utf8DecodeIgnore bs)))
  rw [hdec]

/-- C10: when `msvcrt.getch()` yields a byte that is not valid UTF-8 on
its own (any byte `0x80..0xFF`, e.g. the `0xE0` prefix of an arrow key),
the keyboard arm of the multiplexer tick swallows the
`UnicodeDecodeError`: the line-edit buffer is unchanged, nothing is
echoed, and no command is submitted. -/
theorem keyboardBranch_ignores_non_utf8 (buf : String) (b : Nat)
    (h : 0x80 ≤ b) :
    keyboardBranch buf b = ⟨buf, "", none⟩ := by
  have hb : ¬ b ≤ 0x7F := by omega
  simp [keyboardBranch, decodeKeyByte, hb]

/-- Witness for C10 at the arrow-key prefix byte `0xE0`. -/
theorem keyboardBranch_ignores_non_utf8_witness :
    0x80 ≤ 0xE0 ∧ keyboardBranch "AB" 0xE0 = ⟨"AB", "", none⟩ :=
  ⟨by decide, keyboardBranch_ignores_non_utf8 "AB" 0xE0 (by decide)⟩
